import Mathlib

/-!
Verification of the video speed bot core: the tempo-filter derivation
algorithm of `process_video.py` and the session/dispatch orchestration of
`web_bot.py`.  Python floats are modelled as exact rationals; the decimal
string formatting of the source is modelled as rounding to a fixed number
of decimal places.  The while-loops of `create_audio_filter` use an
explicit fuel parameter returning `none` when the fuel runs out, so that
both termination and non-termination of the source loops are expressible.
-/

namespace VideoSpeedBot

/-- Rounding to two decimal places, the model of the two-decimal string
formatting of the remainder stage in `create_audio_filter`. -/
def round2 (q : ℚ) : ℚ := (round (q * 100) : ℚ) / 100

/-- Rounding to five decimal places, the model of the five-decimal string
formatting of the setpts factor in `process_video`. -/
def round5 (q : ℚ) : ℚ := (round (q * 100000) : ℚ) / 100000

/-- The `speed > 2.0` loop of `create_audio_filter`
(process_video.py lines 82-89): while the remaining target exceeds 2.0,
emit a stage `2.0` and divide the remaining target by 2.0; finally emit the
remainder rounded to two decimals.  `fuel` bounds the number of steps;
`none` means the loop did not finish within `fuel` iterations. -/
def atempoUp : ℕ → ℚ → Option (List ℚ)
  | 0, _ => none
  | fuel + 1, r =>
      if 2 < r then (atempoUp fuel (r / 2)).map (fun l => 2 :: l)
      else some [round2 r]

/-- The `speed < 0.5` loop of `create_audio_filter`
(process_video.py lines 90-97): while the remaining target is below 0.5,
emit a stage `0.5` and multiply the remaining target by 2.0; finally emit
the remainder rounded to two decimals. -/
def atempoDown : ℕ → ℚ → Option (List ℚ)
  | 0, _ => none
  | fuel + 1, r =>
      if r < 1 / 2 then (atempoDown fuel (r * 2)).map (fun l => 1 / 2 :: l)
      else some [round2 r]

/-- `create_audio_filter` of process_video.py (lines 81-99), modelled as the
list of atempo stage multipliers it writes into the filter string.  The
middle branch emits the speed itself, unrounded in the source. -/
def create_audio_filter (fuel : ℕ) (speed : ℚ) : Option (List ℚ) :=
  if 2 < speed then atempoUp fuel speed
  else if speed < 1 / 2 then atempoDown fuel speed
  else some [speed]

/-- The video-side presentation-timestamp scale factor written by
`process_video` (line 102) into the setpts filter: the reciprocal of the
speed, rounded to five decimal places. -/
def videoPtsFactor (speed : ℚ) : ℚ := round5 (1 / speed)

lemma abs_round2_sub (q : ℚ) : |round2 q - q| ≤ 1 / 200 := by
  have h : |q * 100 - (round (q * 100) : ℚ)| ≤ 1 / 2 := abs_sub_round (q * 100)
  have e : round2 q - q = -((q * 100 - (round (q * 100) : ℚ)) / 100) := by
    unfold round2; ring
  rw [e, abs_neg, abs_div, abs_of_pos (by norm_num : (0 : ℚ) < 100)]
  linarith

lemma abs_round5_sub (q : ℚ) : |round5 q - q| ≤ 1 / 200000 := by
  have h : |q * 100000 - (round (q * 100000) : ℚ)| ≤ 1 / 2 := abs_sub_round (q * 100000)
  have e : round5 q - q = -((q * 100000 - (round (q * 100000) : ℚ)) / 100000) := by
    unfold round5; ring
  rw [e, abs_neg, abs_div, abs_of_pos (by norm_num : (0 : ℚ) < 100000)]
  linarith

lemma round2_ge_half {r : ℚ} (h : 1 / 2 ≤ r) : 1 / 2 ≤ round2 r := by
  have h50 : (50 : ℤ) ≤ round (r * 100) := by
    rw [round_eq]
    refine Int.le_floor.mpr ?_
    push_cast
    linarith
  have : (50 : ℚ) ≤ (round (r * 100) : ℚ) := by exact_mod_cast h50
  unfold round2
  linarith

lemma round2_le_one {r : ℚ} (h : r < 1) : round2 r ≤ 1 := by
  have h100 : round (r * 100) ≤ 100 := by
    rw [round_eq]
    have : ⌊r * 100 + 1 / 2⌋ < (101 : ℤ) := by
      refine Int.floor_lt.mpr ?_
      push_cast
      linarith
    omega
  have : (round (r * 100) : ℚ) ≤ 100 := by exact_mod_cast h100
  unfold round2
  linarith

lemma atempoUp_shape :
    ∀ (fuel : ℕ) (r : ℚ) (l : List ℚ), atempoUp fuel r = some l →
      ∃ k, l = List.replicate k 2 ++ [round2 (r / 2 ^ k)] ∧
        r / 2 ^ k ≤ 2 ∧ ∀ j < k, 2 < r / 2 ^ j := by
  intro fuel
  induction fuel with
  | zero => intro r l h; rw [atempoUp] at h; exact Option.noConfusion h
  | succ n ih =>
    intro r l h
    rw [atempoUp] at h
    by_cases hr : 2 < r
    · rw [if_pos hr] at h
      cases hInner : atempoUp n (r / 2) with
      | none => rw [hInner] at h; simp at h
      | some l2 =>
        rw [hInner] at h
        simp only [Option.map_some', Option.some.injEq] at h
        obtain ⟨k, hl2, hle, hgt⟩ := ih (r / 2) l2 hInner
        refine ⟨k + 1, ?_, ?_, ?_⟩
        · rw [← h, hl2]
          have : r / 2 / 2 ^ k = r / 2 ^ (k + 1) := by
            rw [pow_succ]; ring
          rw [this]
          simp [List.replicate_succ]
        · have : r / 2 / 2 ^ k = r / 2 ^ (k + 1) := by
            rw [pow_succ]; ring
          rw [← this]; exact hle
        · intro j hj
          cases j with
          | zero => simpa using hr
          | succ i =>
            have hi : i < k := by omega
            have := hgt i hi
            have e : r / 2 / 2 ^ i = r / 2 ^ (i + 1) := by
              rw [pow_succ]; ring
            rw [← e]; exact this
    · rw [if_neg hr] at h
      simp only [Option.some.injEq] at h
      refine ⟨0, ?_, ?_, ?_⟩
      · rw [← h]; simp
      · simpa using le_of_not_lt hr
      · intro j hj; omega

lemma atempoDown_spec :
    ∀ (fuel : ℕ) (r : ℚ) (l : List ℚ), 0 < r → r < 1 →
      atempoDown fuel r = some l →
      (∀ x ∈ l, 1 / 2 ≤ x ∧ x ≤ 2) ∧ |l.prod - r| ≤ r / 100 := by
  intro fuel
  induction fuel with
  | zero => intro r l _ _ h; rw [atempoDown] at h; exact Option.noConfusion h
  | succ n ih =>
    intro r l hr hr1 h
    rw [atempoDown] at h
    by_cases hlt : r < 1 / 2
    · rw [if_pos hlt] at h
      cases hInner : atempoDown n (r * 2) with
      | none => rw [hInner] at h; simp at h
      | some l2 =>
        rw [hInner] at h
        simp only [Option.map_some', Option.some.injEq] at h
        obtain ⟨hbound, hprod⟩ := ih (r * 2) l2 (by linarith) (by linarith) hInner
        constructor
        · intro x hx
          rw [← h] at hx
          rcases List.mem_cons.mp hx with hx | hx
          · rw [hx]; norm_num
          · exact hbound x hx
        · rw [← h, List.prod_cons]
          have e : 1 / 2 * l2.prod - r = (l2.prod - r * 2) / 2 := by ring
          rw [e, abs_div, abs_of_pos (by norm_num : (0 : ℚ) < 2)]
          linarith
    · rw [if_neg hlt] at h
      simp only [Option.some.injEq] at h
      have h12 : 1 / 2 ≤ r := le_of_not_lt hlt
      constructor
      · intro x hx
        rw [← h] at hx
        simp only [List.mem_singleton] at hx
        rw [hx]
        exact ⟨round2_ge_half h12, le_trans (round2_le_one hr1) (by norm_num)⟩
      · rw [← h, List.prod_singleton]
        have := abs_round2_sub r
        have : |round2 r - r| ≤ 1 / 200 := this
        linarith [this]

lemma atempoUp_total :
    ∀ (fuel : ℕ) (r : ℚ), r ≤ 2 * 2 ^ fuel → ∃ l, atempoUp (fuel + 1) r = some l := by
  intro fuel
  induction fuel with
  | zero =>
    intro r hle
    have hle2 : r ≤ 2 := by simpa using hle
    rw [atempoUp, if_neg (not_lt.mpr hle2)]
    exact ⟨_, rfl⟩
  | succ n ih =>
    intro r hle
    rw [atempoUp]
    by_cases hr : 2 < r
    · rw [if_pos hr]
      obtain ⟨l, hl⟩ := ih (r / 2) (by rw [pow_succ] at hle; linarith)
      exact ⟨2 :: l, by rw [hl]; rfl⟩
    · rw [if_neg hr]
      exact ⟨_, rfl⟩

lemma atempoDown_total :
    ∀ (fuel : ℕ) (r : ℚ), 1 / 2 ≤ r * 2 ^ fuel → ∃ l, atempoDown (fuel + 1) r = some l := by
  intro fuel
  induction fuel with
  | zero =>
    intro r hle
    have hle2 : 1 / 2 ≤ r := by simpa using hle
    rw [atempoDown, if_neg (not_lt.mpr hle2)]
    exact ⟨_, rfl⟩
  | succ n ih =>
    intro r hle
    rw [atempoDown]
    by_cases hr : r < 1 / 2
    · rw [if_pos hr]
      obtain ⟨l, hl⟩ := ih (r * 2) (by rw [pow_succ] at hle; linarith)
      exact ⟨1 / 2 :: l, by rw [hl]; rfl⟩
    · rw [if_neg hr]
      exact ⟨_, rfl⟩

lemma atempoDown_nonpos :
    ∀ (fuel : ℕ) (r : ℚ), r ≤ 0 → atempoDown fuel r = none := by
  intro fuel
  induction fuel with
  | zero => intro r _; rfl
  | succ n ih =>
    intro r hr
    rw [atempoDown, if_pos (by linarith : r < 1 / 2), ih (r * 2) (by linarith)]
    rfl

/-- One entry of the `user_sessions` dict of web_bot.py (lines 376-385). -/
structure Session where
  fileId : String
  chatId : Int
  messageId : Nat
  fileName : String
  fileSizeMb : ℚ
deriving DecidableEq

/-- The `user_sessions` dict: a mapping from user id to the in-flight
session, `none` when the key is absent. -/
def SessionStore : Type := Nat → Option Session

/-- `user_sessions[user_id] = session` (web_bot.py line 376). -/
def putSession (uid : Nat) (s : Session) (m : SessionStore) : SessionStore :=
  fun v => if v = uid then some s else m v

/-- `user_sessions[user_id]` lookup (web_bot.py line 437). -/
def getSession (uid : Nat) (m : SessionStore) : Option Session := m uid

/-- The guarded delete used throughout web_bot.py:
`if user_id in user_sessions: del user_sessions[user_id]`. -/
def removeSession (uid : Nat) (m : SessionStore) : SessionStore :=
  fun v => if v = uid then none else m v

/-- Result of `trigger_video_workflow`: `ok` is the boolean the Python
function returns; `networkCalled` records whether the POST to the
dispatches endpoint was issued. -/
structure TriggerResult where
  ok : Bool
  networkCalled : Bool
deriving DecidableEq

/-- `GitHubActionsClient.trigger_video_workflow` (web_bot.py lines 137-182).
`response` is the provider's answer to the POST: `none` models an exception
raised during the request (caught by the catch-all, returning `False`),
`some (status, body)` a completed HTTP exchange.  The function returns
`True` exactly when the status is 204; with a falsy token or repo it
returns `False` before any request is made. -/
def trigger_video_workflow (token repo : String) (response : Option (Nat × String)) :
    TriggerResult :=
  if token = "" ∨ repo = "" then ⟨false, false⟩
  else
    match response with
    | none => ⟨false, true⟩
    | some (status, _body) => ⟨decide (status = 204), true⟩

/-- Whether `pat` occurs as a contiguous substring of the character list,
the model of Python's `pat in hay` on strings. -/
def charsHaveSub (pat : List Char) : List Char → Bool
  | [] => pat.isEmpty
  | c :: rest => pat.isPrefixOf (c :: rest) || charsHaveSub pat rest

/-- Python's case-sensitive substring test `pat in hay`. -/
def strContains (hay pat : String) : Bool := charsHaveSub pat.toList hay.toList

/-- The error-description classification inside `get_direct_video_url`
(web_bot.py lines 108-118): case-sensitive substring tests on the
platform's error description, in source order; no match returns `None`. -/
def classify_error (desc : String) : Option String :=
  if strContains desc "file is too big" then some "FILE_TOO_BIG"
  else if strContains desc "invalid file id" then some "INVALID_FILE_ID"
  else if strContains desc "wrong file id" then some "WRONG_FILE_ID"
  else none

/-- ASCII-lowercased code of a character, used to state case-insensitive
matching. -/
def lowerCode (c : Char) : ℕ :=
  if 65 ≤ c.toNat ∧ c.toNat ≤ 90 then c.toNat + 32 else c.toNat

/-- Contiguous-sublist test on numeric codes. -/
def hasSubNat (pat : List ℕ) : List ℕ → Bool
  | [] => pat.isEmpty
  | c :: rest => pat.isPrefixOf (c :: rest) || hasSubNat pat rest

/-- Case-insensitive substring test: substring matching after ASCII
lowercasing of both sides. -/
def strContainsCI (hay pat : String) : Bool :=
  hasSubNat (pat.toList.map lowerCode) (hay.toList.map lowerCode)

/-- Spec-side classifier, written from the spec's words for comparison with
`classify_error`: classify the provider's textual reason "using substring
matching on the platform's error text (case-insensitive)". -/
def classifySpecCI (desc : String) : Option String :=
  if strContainsCI desc "file is too big" then some "FILE_TOO_BIG"
  else if strContainsCI desc "invalid file id" then some "INVALID_FILE_ID"
  else if strContainsCI desc "wrong file id" then some "WRONG_FILE_ID"
  else none

/-- The possible answers of the Telegram `getFile` lookup as
`get_direct_video_url` distinguishes them: a transport exception, a non-200
HTTP status, an unparsable body, a parsed body with `ok: false` and an
error description, a parsed success whose `result.file_path` is missing
(the KeyError falls into the catch-all), or a success carrying the file
path. -/
inductive TgResponse
  | transportError
  | httpError (status : Nat)
  | badJson
  | apiError (description : String)
  | missingPath
  | fileInfo (filePath : String)
deriving DecidableEq

/-- `GitHubActionsClient.get_direct_video_url` (web_bot.py lines 83-135):
every branch, including all exception handlers, returns a value — `None`,
one of the three sentinel strings, or the composed direct URL. -/
def get_direct_video_url (botToken : String) (resp : TgResponse) : Option String :=
  match resp with
  | .transportError => none
  | .httpError _ => none
  | .badJson => none
  | .apiError desc => classify_error desc
  | .missingPath => none
  | .fileInfo path =>
      some ("https://api.telegram.org/file/bot" ++ botToken ++ "/" ++ path)

/-- The decoded callback payload of `callback_handler`: the cancel button,
a `speed_<x>` button, or any other data (which the handler ignores). -/
inductive CallbackData
  | cancel
  | speed (sp : ℚ)
  | other

/-- Observable outcome of one `callback_handler` run: the session store
after the run, the file ids passed to `get_direct_video_url`, the
`(video_url, speed)` pairs passed to `trigger_video_workflow`, and the
messages passed to `event.edit` (attempted edits, whether or not the edit
call itself raised). -/
structure CallbackResult where
  sessions : SessionStore
  resolveCalls : List String
  dispatchCalls : List (String × ℚ)
  edits : List String

/-- The `except Exception` block of `callback_handler` (web_bot.py lines
518-527): attempt one more edit (its own failure is swallowed by the inner
bare `except: pass`), then delete the user's session if present. -/
def exceptPath (userId : Nat) (store : SessionStore)
    (resolveCalls : List String) (dispatchCalls : List (String × ℚ))
    (edits : List String) : CallbackResult :=
  { sessions := removeSession userId store
    resolveCalls := resolveCalls
    dispatchCalls := dispatchCalls
    edits := edits ++ ["unexpected_error"] }

/-- `callback_handler` of web_bot.py (lines 405-527), with its external
effects abstracted as oracles: `githubConfigured` is `self.github_client
is not None`; `getMsgFails` is whether `event.get_message()` raises;
`resolve` is what `get_direct_video_url` returns for a file id;
`dispatchOk` is what `trigger_video_workflow` returns for a url and speed
(it never raises); `editFails n` is whether the n-th `event.edit` call of
this run raises.  Edit messages are short tags standing for the literal
message texts of the source. -/
def callback_handler (store : SessionStore) (userId : Nat) (ev : CallbackData)
    (githubConfigured : Bool) (getMsgFails : Bool)
    (resolve : String → Option String)
    (dispatchOk : String → ℚ → Bool)
    (editFails : ℕ → Bool) : CallbackResult :=
  if getMsgFails then exceptPath userId store [] [] []
  else
    match ev with
    | .cancel =>
        if editFails 0 then exceptPath userId store [] [] ["cancelled"]
        else
          { sessions := removeSession userId store
            resolveCalls := []
            dispatchCalls := []
            edits := ["cancelled"] }
    | .other =>
        { sessions := store, resolveCalls := [], dispatchCalls := [], edits := [] }
    | .speed sp =>
        match store userId with
        | none =>
            if editFails 0 then exceptPath userId store [] [] ["no_video_found"]
            else
              { sessions := store
                resolveCalls := []
                dispatchCalls := []
                edits := ["no_video_found"] }
        | some sess =>
            if githubConfigured = false then
              if editFails 0 then exceptPath userId store [] [] ["not_configured"]
              else
                { sessions := store
                  resolveCalls := []
                  dispatchCalls := []
                  edits := ["not_configured"] }
            else if editFails 0 then exceptPath userId store [] [] ["getting_url"]
            else
              match resolve sess.fileId with
              | none =>
                  if editFails 1 then
                    exceptPath userId store [sess.fileId] [] ["getting_url", "url_failed"]
                  else
                    { sessions := removeSession userId store
                      resolveCalls := [sess.fileId]
                      dispatchCalls := []
                      edits := ["getting_url", "url_failed"] }
              | some u =>
                  if u = "" then
                    if editFails 1 then
                      exceptPath userId store [sess.fileId] [] ["getting_url", "url_failed"]
                    else
                      { sessions := removeSession userId store
                        resolveCalls := [sess.fileId]
                        dispatchCalls := []
                        edits := ["getting_url", "url_failed"] }
                  else if u = "FILE_TOO_BIG" then
                    if editFails 1 then
                      exceptPath userId store [sess.fileId] [] ["getting_url", "file_too_big"]
                    else
                      { sessions := removeSession userId store
                        resolveCalls := [sess.fileId]
                        dispatchCalls := []
                        edits := ["getting_url", "file_too_big"] }
                  else if u = "INVALID_FILE_ID" ∨ u = "WRONG_FILE_ID" then
                    if editFails 1 then
                      exceptPath userId store [sess.fileId] [] ["getting_url", "file_id_error"]
                    else
                      { sessions := removeSession userId store
                        resolveCalls := [sess.fileId]
                        dispatchCalls := []
                        edits := ["getting_url", "file_id_error"] }
                  else if editFails 1 then
                    exceptPath userId store [sess.fileId] [] ["getting_url", "triggering"]
                  else
                    let ok := dispatchOk u sp
                    let msg := if ok then "dispatch_success" else "dispatch_failed"
                    if editFails 2 then
                      exceptPath userId store [sess.fileId] [(u, sp)]
                        ["getting_url", "triggering", msg]
                    else
                      { sessions := removeSession userId store
                        resolveCalls := [sess.fileId]
                        dispatchCalls := [(u, sp)]
                        edits := ["getting_url", "triggering", msg] }

/-- A sample session used by witness instances. -/
def sessA : Session :=
  { fileId := "fileA", chatId := 10, messageId := 1, fileName := "a.mp4", fileSizeMb := 5 }

/-- A second sample session used by witness instances. -/
def sessB : Session :=
  { fileId := "fileB", chatId := 11, messageId := 2, fileName := "b.mp4", fileSizeMb := 7 }

/-- The empty session store. -/
def emptyStore : SessionStore := fun _ => none

/-- A store holding `sessA` for user 7, used by witness instances. -/
def storeA : SessionStore := putSession 7 sessA emptyStore

/-- A resolver oracle answering a fixed direct URL, for witness instances. -/
def resolveA : String → Option String := fun _ => some "https://u"

/-- A dispatch oracle that always reports success, for witness instances. -/
def dispatchAlways : String → ℚ → Bool := fun _ _ => true

/-- An edit oracle where exactly the third edit call (the success reply)
raises, for witness instances. -/
def editFailLast : ℕ → Bool := fun n => decide (n = 2)

/-- An edit oracle where no edit call raises, for witness instances. -/
def editNeverFails : ℕ → Bool := fun _ => false

/-- C1: for every speed strictly greater than 2.0, `create_audio_filter`
emits a positive number of stages of exactly 2.0 — obtained by repeatedly
dividing the remaining target by 2.0 until it is at most 2.0 — followed by
one final remainder stage rounded to two decimal places; in particular for
input 5.0 the stage sequence is exactly [2.0, 2.0, 1.25]. -/
theorem tempo_chain_above_two :
    (∀ (speed : ℚ) (fuel : ℕ) (l : List ℚ), 2 < speed →
        create_audio_filter fuel speed = some l →
        ∃ k, 0 < k ∧ l = List.replicate k 2 ++ [round2 (speed / 2 ^ k)] ∧
          speed / 2 ^ k ≤ 2 ∧ ∀ j < k, 2 < speed / 2 ^ j) ∧
    create_audio_filter 3 5 = some [2, 2, 5 / 4] := by
  constructor
  · intro speed fuel l hsp h
    rw [create_audio_filter, if_pos hsp] at h
    obtain ⟨k, hl, hle, hgt⟩ := atempoUp_shape fuel speed l h
    refine ⟨k, ?_, hl, hle, hgt⟩
    rcases Nat.eq_zero_or_pos k with hk | hk
    · subst hk; simp at hle; linarith
    · exact hk
  · norm_num [create_audio_filter, atempoUp, round2, round_eq]

/-- Witness for C1 at speed 5 with fuel 3. -/
theorem tempo_chain_above_two_witness :
    ∃ k, 0 < k ∧ [(2 : ℚ), 2, 5 / 4] = List.replicate k 2 ++ [round2 ((5 : ℚ) / 2 ^ k)] ∧
      (5 : ℚ) / 2 ^ k ≤ 2 ∧ ∀ j < k, 2 < (5 : ℚ) / 2 ^ j :=
  tempo_chain_above_two.1 5 3 [2, 2, 5 / 4] (by norm_num) tempo_chain_above_two.2

/-- C2: for every speed in (0, 0.5), every stage emitted by
`create_audio_filter` lies in [0.5, 2.0] and the product of the stages is
within 1% relative tolerance of the requested speed; in particular for
input 0.2 the stage sequence is exactly [0.5, 0.5, 0.8]. -/
theorem tempo_chain_below_half :
    (∀ (speed : ℚ) (fuel : ℕ) (l : List ℚ), 0 < speed → speed < 1 / 2 →
        create_audio_filter fuel speed = some l →
        (∀ x ∈ l, 1 / 2 ≤ x ∧ x ≤ 2) ∧ |l.prod - speed| ≤ speed / 100) ∧
    create_audio_filter 3 (1 / 5) = some [1 / 2, 1 / 2, 4 / 5] := by
  constructor
  · intro speed fuel l h0 hhalf h
    rw [create_audio_filter, if_neg (not_lt.mpr (by linarith)), if_pos hhalf] at h
    exact atempoDown_spec fuel speed l h0 (by linarith) h
  · norm_num [create_audio_filter, atempoDown, round2, round_eq]

/-- Witness for C2 at speed 1/5 with fuel 3. -/
theorem tempo_chain_below_half_witness :
    (∀ x ∈ [(1 : ℚ) / 2, 1 / 2, 4 / 5], 1 / 2 ≤ x ∧ x ≤ 2) ∧
      |([(1 : ℚ) / 2, 1 / 2, 4 / 5]).prod - 1 / 5| ≤ 1 / 5 / 100 :=
  tempo_chain_below_half.1 (1 / 5) 3 [1 / 2, 1 / 2, 4 / 5] (by norm_num) (by norm_num)
    tempo_chain_below_half.2

/-- C3: for zero or negative speed the source loop
`while remaining < 0.5: remaining *= 2.0` never terminates — here: the
model returns `none` for every amount of fuel — so the function never
produces a filter and never raises an `InvalidSpeed` failure. -/
theorem tempo_nonpos_never_terminates :
    ∀ (speed : ℚ), speed ≤ 0 → ∀ fuel, create_audio_filter fuel speed = none := by
  intro speed hsp fuel
  rw [create_audio_filter, if_neg (not_lt.mpr (by linarith)),
    if_pos (by linarith : speed < 1 / 2), atempoDown_nonpos fuel speed hsp]

/-- Witness for C3 at speed 0 with fuel 100. -/
theorem tempo_nonpos_never_terminates_witness :
    create_audio_filter 100 0 = none :=
  tempo_nonpos_never_terminates 0 le_rfl 100

/-- C4 counterexample: at speed 1.5 the video-side setpts factor the code
emits is `1/1.5` rounded to five decimal places (`0.66667`), which is not
equal to `1/1.5`. -/
theorem video_factor_not_exact_at_three_halves :
    create_audio_filter 0 (3 / 2) = some [3 / 2] ∧
      videoPtsFactor (3 / 2) ≠ 1 / (3 / 2 : ℚ) := by
  constructor
  · norm_num [create_audio_filter]
  · norm_num [videoPtsFactor, round5, round_eq]

/-- C4 amended: for every speed in [0.5, 2.0] the chain is the single
stage `speed`, and the video-side setpts factor is `1/speed` rounded to
five decimal places (within 1/200000 of `1/speed`); at speed 1.5 the chain
is the single stage 1.5 and the factor is 0.66667. -/
theorem single_stage_mid_range :
    (∀ (speed : ℚ) (fuel : ℕ), 1 / 2 ≤ speed → speed ≤ 2 →
        create_audio_filter fuel speed = some [speed] ∧
        |videoPtsFactor speed - 1 / speed| ≤ 1 / 200000) ∧
    create_audio_filter 0 (3 / 2) = some [3 / 2] ∧
    videoPtsFactor (3 / 2) = 66667 / 100000 := by
  refine ⟨?_, ?_, ?_⟩
  · intro speed fuel h1 h2
    constructor
    · rw [create_audio_filter, if_neg (not_lt.mpr h2), if_neg (not_lt.mpr h1)]
    · show |round5 (1 / speed) - 1 / speed| ≤ 1 / 200000
      exact abs_round5_sub (1 / speed)
  · norm_num [create_audio_filter]
  · norm_num [videoPtsFactor, round5, round_eq]

/-- Witness for the amended C4 at speed 1 with fuel 4. -/
theorem single_stage_mid_range_witness :
    create_audio_filter 4 1 = some [1] ∧ |videoPtsFactor 1 - 1 / 1| ≤ 1 / 200000 :=
  single_stage_mid_range.1 1 4 (by norm_num) (by norm_num)

/-- C10: for every strictly positive speed `create_audio_filter`
terminates: some finite fuel makes both source loops finish and a stage
list is returned. -/
theorem tempo_total_positive :
    ∀ (speed : ℚ), 0 < speed → ∃ fuel l, create_audio_filter fuel speed = some l := by
  intro speed hsp
  by_cases h2 : 2 < speed
  · obtain ⟨n, hn⟩ := pow_unbounded_of_one_lt speed (by norm_num : (1 : ℚ) < 2)
    have hpos : (0 : ℚ) < 2 ^ n := pow_pos (by norm_num) n
    obtain ⟨l, hl⟩ := atempoUp_total n speed (by linarith)
    exact ⟨n + 1, l, by rw [create_audio_filter, if_pos h2]; exact hl⟩
  · by_cases hh : speed < 1 / 2
    · obtain ⟨n, hn⟩ := pow_unbounded_of_one_lt (1 / speed) (by norm_num : (1 : ℚ) < 2)
      rw [div_lt_iff₀ hsp] at hn
      have hpos : (0 : ℚ) < 2 ^ n := pow_pos (by norm_num) n
      obtain ⟨l, hl⟩ := atempoDown_total n speed (by nlinarith)
      exact ⟨n + 1, l, by rw [create_audio_filter, if_neg h2, if_pos hh]; exact hl⟩
    · exact ⟨0, [speed], by rw [create_audio_filter, if_neg h2, if_neg hh]⟩

/-- Witness for C10 at speed 3. -/
theorem tempo_total_positive_witness :
    ∃ fuel l, create_audio_filter fuel 3 = some l :=
  tempo_total_positive 3 (by norm_num)

/-- C9: for the session store, `put` followed by `get` on the same key
returns the stored session, a second `put` for the same key replaces the
first entirely, and `remove` on an absent key is a no-op. -/
theorem session_store_laws :
    ∀ (m : SessionStore) (uid : Nat) (s1 s2 : Session),
      getSession uid (putSession uid s1 m) = some s1 ∧
      putSession uid s2 (putSession uid s1 m) = putSession uid s2 m ∧
      (getSession uid m = none → removeSession uid m = m) := by
  intro m uid s1 s2
  refine ⟨?_, ?_, ?_⟩
  · show (if uid = uid then some s1 else m uid) = some s1
    rw [if_pos rfl]
  · funext v
    show (if v = uid then some s2 else if v = uid then some s1 else m v) =
      if v = uid then some s2 else m v
    by_cases hv : v = uid
    · rw [if_pos hv, if_pos hv]
    · rw [if_neg hv, if_neg hv, if_neg hv]
  · intro h
    funext v
    show (if v = uid then none else m v) = m v
    by_cases hv : v = uid
    · rw [if_pos hv, hv]; exact h.symm
    · rw [if_neg hv]

/-- Witness for C9 on the empty store with uid 0. -/
theorem session_store_laws_witness :
    getSession 0 (putSession 0 sessA emptyStore) = some sessA ∧
    putSession 0 sessB (putSession 0 sessA emptyStore) = putSession 0 sessB emptyStore ∧
    removeSession 0 emptyStore = emptyStore :=
  ⟨(session_store_laws emptyStore 0 sessA sessB).1,
   (session_store_laws emptyStore 0 sessA sessB).2.1,
   (session_store_laws emptyStore 0 sessA sessB).2.2 rfl⟩

/-- C6 counterexample: with an empty token the function returns the plain
failure value `false` — without a network call, but the very same value a
completed provider rejection (status 500) produces, so there is no
distinct NotConfigured outcome at the call boundary. -/
theorem trigger_missing_creds_same_as_rejected :
    trigger_video_workflow "" "owner/repo" (some (204, "")) = ⟨false, false⟩ ∧
    (trigger_video_workflow "" "owner/repo" (some (204, ""))).ok =
      (trigger_video_workflow "tok" "owner/repo" (some (500, "err"))).ok :=
  ⟨rfl, rfl⟩

/-- C6 amended: `trigger_video_workflow` reports success exactly when both
credentials are non-empty and the provider responds 204; with an empty
token or repo it returns immediately, without a network call, the same
boolean failure as every other failure. -/
theorem trigger_success_iff_204 :
    ∀ (token repo : String) (response : Option (Nat × String)),
      ((trigger_video_workflow token repo response).ok = true ↔
        token ≠ "" ∧ repo ≠ "" ∧ ∃ body, response = some (204, body)) ∧
      (token = "" ∨ repo = "" →
        trigger_video_workflow token repo response = ⟨false, false⟩) := by
  intro token repo response
  constructor
  · constructor
    · intro h
      by_cases hc : token = "" ∨ repo = ""
      · rw [trigger_video_workflow.eq_def, if_pos hc] at h
        exact absurd h (by simp)
      · push_neg at hc
        refine ⟨hc.1, hc.2, ?_⟩
        rw [trigger_video_workflow.eq_def, if_neg (by simp [hc.1, hc.2])] at h
        cases response with
        | none => exact absurd h (by simp)
        | some p =>
          obtain ⟨status, body⟩ := p
          simp only [decide_eq_true_eq] at h
          exact ⟨body, by rw [h]⟩
    · rintro ⟨ht, hr, body, hresp⟩
      subst hresp
      rw [trigger_video_workflow.eq_def, if_neg (by simp [ht, hr])]
      simp
  · intro hc
    rw [trigger_video_workflow.eq_def, if_pos hc]

/-- Witness for the amended C6 with an empty token. -/
theorem trigger_success_iff_204_witness :
    trigger_video_workflow "" "r" none = ⟨false, false⟩ :=
  (trigger_success_iff_204 "" "r" none).2 (Or.inl rfl)

/-- C7 counterexample: on the platform error text "File is too big" the
code classifies to `None` (unknown) because Python's `in` is
case-sensitive, while the claimed case-insensitive matching classifies it
as FILE_TOO_BIG. -/
theorem resolver_classification_not_case_insensitive :
    get_direct_video_url "tok" (TgResponse.apiError "File is too big") = none ∧
    classifySpecCI "File is too big" = some "FILE_TOO_BIG" :=
  ⟨by decide, by decide⟩

/-- C7 amended: `get_direct_video_url` never propagates an exception —
every branch returns a tagged value: `none`, one of the three sentinel
strings, or the composed direct URL — and on a platform error response it
classifies the textual reason by case-SENSITIVE substring matching
(matching "file is too big" but not "File is too big"). -/
theorem resolver_total_tagged_case_sensitive :
    ∀ (botToken : String) (resp : TgResponse),
      (get_direct_video_url botToken resp = none ∨
       get_direct_video_url botToken resp = some "FILE_TOO_BIG" ∨
       get_direct_video_url botToken resp = some "INVALID_FILE_ID" ∨
       get_direct_video_url botToken resp = some "WRONG_FILE_ID" ∨
       ∃ p, resp = TgResponse.fileInfo p ∧
         get_direct_video_url botToken resp =
           some ("https://api.telegram.org/file/bot" ++ botToken ++ "/" ++ p)) ∧
      (∀ d, get_direct_video_url botToken (TgResponse.apiError d) = classify_error d) ∧
      get_direct_video_url botToken (TgResponse.apiError "file is too big") =
        some "FILE_TOO_BIG" ∧
      get_direct_video_url botToken (TgResponse.apiError "File is too big") = none := by
  intro botToken resp
  refine ⟨?_, fun d => rfl,
    show classify_error "file is too big" = some "FILE_TOO_BIG" by decide,
    show classify_error "File is too big" = none by decide⟩
  cases resp with
  | transportError => exact Or.inl rfl
  | httpError s => exact Or.inl rfl
  | badJson => exact Or.inl rfl
  | missingPath => exact Or.inl rfl
  | apiError d =>
    have hge : get_direct_video_url botToken (TgResponse.apiError d) = classify_error d := rfl
    rw [hge, classify_error]
    split_ifs <;> simp
  | fileInfo p =>
    exact Or.inr (Or.inr (Or.inr (Or.inr ⟨p, rfl, rfl⟩)))

/-- C5: in the speed-selection branch, whenever the resolver returns a
genuine URL and the dispatch succeeds, the user's session is removed from
the store for every possible outcome of the subsequent success-reply edit
(`editFails 2` is unconstrained): a raising reply edit lands in the
exception handler, which also deletes the session. -/
theorem dispatch_success_always_removes_session :
    ∀ (store : SessionStore) (userId : Nat) (sp : ℚ) (sess : Session)
      (resolve : String → Option String) (dispatchOk : String → ℚ → Bool)
      (editFails : ℕ → Bool) (u : String),
      store userId = some sess →
      resolve sess.fileId = some u →
      u ≠ "" → u ≠ "FILE_TOO_BIG" → u ≠ "INVALID_FILE_ID" → u ≠ "WRONG_FILE_ID" →
      dispatchOk u sp = true →
      editFails 0 = false → editFails 1 = false →
      (callback_handler store userId (CallbackData.speed sp) true false resolve
          dispatchOk editFails).dispatchCalls = [(u, sp)] ∧
      (callback_handler store userId (CallbackData.speed sp) true false resolve
          dispatchOk editFails).sessions userId = none := by
  intro store userId sp sess resolve dispatchOk editFails u hstore hres hne hbig hinv
    hwrong hdisp he0 he1
  by_cases he2 : editFails 2 = true
  · simp [callback_handler, hstore, hres, he0, he1, he2, hdisp, hne, hbig, hinv, hwrong,
      exceptPath, removeSession]
  · have he2f : editFails 2 = false := by simpa using he2
    simp [callback_handler, hstore, hres, he0, he1, he2f, hdisp, hne, hbig, hinv, hwrong,
      removeSession]

/-- Witness for C5: concrete run in which the success-reply edit raises
(`editFailLast`), yet the dispatch is recorded and the session is gone. -/
theorem dispatch_success_always_removes_session_witness :
    (callback_handler storeA 7 (CallbackData.speed (3 / 2)) true false resolveA
        dispatchAlways editFailLast).dispatchCalls = [("https://u", 3 / 2)] ∧
    (callback_handler storeA 7 (CallbackData.speed (3 / 2)) true false resolveA
        dispatchAlways editFailLast).sessions 7 = none :=
  dispatch_success_always_removes_session storeA 7 (3 / 2) sessA resolveA dispatchAlways
    editFailLast "https://u" rfl rfl (by decide) (by decide) (by decide) (by decide)
    rfl rfl rfl

/-- C8: a speed selection for a user with no stored session edits the
prompt to "no video found" and leaves the store unchanged, calling neither
the resolver nor the dispatch client, whatever the configuration flag and
edit outcomes. -/
theorem no_session_no_dispatch :
    ∀ (store : SessionStore) (userId : Nat) (sp : ℚ) (configured : Bool)
      (resolve : String → Option String) (dispatchOk : String → ℚ → Bool)
      (editFails : ℕ → Bool),
      store userId = none →
      (callback_handler store userId (CallbackData.speed sp) configured false resolve
          dispatchOk editFails).resolveCalls = [] ∧
      (callback_handler store userId (CallbackData.speed sp) configured false resolve
          dispatchOk editFails).dispatchCalls = [] ∧
      (callback_handler store userId (CallbackData.speed sp) configured false resolve
          dispatchOk editFails).sessions = store ∧
      (callback_handler store userId (CallbackData.speed sp) configured false resolve
          dispatchOk editFails).edits.head? = some "no_video_found" := by
  intro store userId sp configured resolve dispatchOk editFails hstore
  have hrm : removeSession userId store = store := by
    funext v
    show (if v = userId then none else store v) = store v
    by_cases hv : v = userId
    · rw [if_pos hv, hv, hstore]
    · rw [if_neg hv]
  by_cases he0 : editFails 0 = true
  · simp [callback_handler, hstore, he0, exceptPath, hrm]
  · have he0f : editFails 0 = false := by simpa using he0
    simp [callback_handler, hstore, he0f]

/-- Witness for C8 on the empty store. -/
theorem no_session_no_dispatch_witness :
    (callback_handler emptyStore 0 (CallbackData.speed 2) true false resolveA
        dispatchAlways editNeverFails).resolveCalls = [] ∧
    (callback_handler emptyStore 0 (CallbackData.speed 2) true false resolveA
        dispatchAlways editNeverFails).dispatchCalls = [] ∧
    (callback_handler emptyStore 0 (CallbackData.speed 2) true false resolveA
        dispatchAlways editNeverFails).sessions = emptyStore ∧
    (callback_handler emptyStore 0 (CallbackData.speed 2) true false resolveA
        dispatchAlways editNeverFails).edits.head? = some "no_video_found" :=
  no_session_no_dispatch emptyStore 0 2 true resolveA dispatchAlways editNeverFails rfl

end VideoSpeedBot
